import Mathlib

/-
Verification development for the wms-sync crate (offline-first sync engine).

Scope of the embedding:
  - crates/wms-sync/src/crdt.rs      (CrdtDocument wrapper, CrdtValue, CrdtOperation)
  - crates/wms-sync/src/engine.rs    (SyncEngine, SyncStatus, outbox/inbox logic)
  - crates/wms-sync/src/protocol.rs  (ChangeRecord and its constructors)

The Automerge crate itself is an external dependency whose source is not part
of this repository.  It is modelled from the specification (sections 3 and 4.1
of spec.md): a document is an actor identifier plus a mergeable change history,
merge is union of change histories (hence commutative, associative and
idempotent), map keys are last-writer-wins resolved by the largest operation
identifier (lamport counter, then actor), and each accumulation list is the
set of operation records pushed under its key by any actor.  IEEE f64 values
are modelled as exact rationals, and i64 as unbounded integers, since no claim
exercises overflow or rounding.
-/

namespace WmsSync

/-- Error type, translated from crates/wms-core/src/error.rs restricted to the
variants wms-sync constructs.  The string rendered by the thiserror Display
implementation is produced by WmsError.toMessage below. -/
inductive WmsError where
  | SyncError (msg : String)
  | Serialization (msg : String)
deriving DecidableEq

/-- Display rendering of the error, following the thiserror attributes in
crates/wms-core/src/error.rs. -/
def WmsError.toMessage : WmsError → String
  | .SyncError m => "Sync error: " ++ m
  | .Serialization m => "Serialization error: " ++ m

/-- Result alias from wms-core. -/
abbrev WResult (α : Type) := Except WmsError α

instance {ε α : Type} [DecidableEq ε] [DecidableEq α] : DecidableEq (Except ε α) :=
  fun a b =>
    match a, b with
    | .ok x, .ok y => decidable_of_iff (x = y) (by simp)
    | .error x, .error y => decidable_of_iff (x = y) (by simp)
    | .ok _, .error _ => isFalse (by simp)
    | .error _, .ok _ => isFalse (by simp)

/-- Modelled from the spec: an Automerge operation identifier, a lamport
counter paired with the acting device identifier; section 4.1 requires
last-writer-wins keys to be tie-broken deterministically by counter then
actor. -/
structure OpId where
  counter : Nat
  actor : String
deriving DecidableEq

/-- Modelled from the spec: scalar values storable at a document key.  IEEE
f64 is modelled as an exact rational. -/
inductive AMValue where
  | str (s : String)
  | int (i : Int)
  | float (q : ℚ)
  | bool (b : Bool)
  | null
deriving DecidableEq

/-- Injection of AMValue into a lexicographic product, used only to obtain a
linear order for the deterministic last-writer-wins choice. -/
def AMValue.sortKey : AMValue → ℕ ×ₗ (String ×ₗ (ℤ ×ₗ ℚ))
  | .str s => toLex (0, toLex (s, toLex (0, 0)))
  | .int i => toLex (1, toLex ("", toLex (i, 0)))
  | .float q => toLex (2, toLex ("", toLex (0, q)))
  | .bool b => toLex (3, toLex ("", toLex ((if b then 1 else 0), 0)))
  | .null => toLex (4, toLex ("", toLex (0, 0)))

theorem AMValue.valueSortKey_injective : Function.Injective AMValue.sortKey := by
  intro a b h
  cases a <;> cases b <;>
    simp only [AMValue.sortKey, toLex_inj, Prod.mk.injEq] at h <;>
    try rfl
  all_goals try simp_all
  rename_i b1 b2
  cases b1 <;> cases b2 <;> simp_all

instance : LinearOrder AMValue := LinearOrder.lift' AMValue.sortKey AMValue.valueSortKey_injective

/-- Injection of OpId into a lexicographic pair for its linear order. -/
def OpId.sortKey (o : OpId) : ℕ ×ₗ String := toLex (o.counter, o.actor)

theorem OpId.opIdSortKey_injective : Function.Injective OpId.sortKey := by
  intro a b h
  cases a; cases b
  simpa [OpId.sortKey, toLex_inj, Prod.mk.injEq, OpId.mk.injEq] using h

instance : LinearOrder OpId := LinearOrder.lift' OpId.sortKey OpId.opIdSortKey_injective

/-- Modelled from the spec: one last-writer-wins put of a scalar value at a
root map key. -/
structure PutOp where
  id : OpId
  key : String
  value : AMValue
deriving DecidableEq

/-- Injection of PutOp into a lexicographic product for its linear order. -/
def PutOp.sortKey (p : PutOp) : OpId ×ₗ (String ×ₗ AMValue) :=
  toLex (p.id, toLex (p.key, p.value))

theorem PutOp.putSortKey_injective : Function.Injective PutOp.sortKey := by
  intro a b h
  cases a; cases b
  simpa [PutOp.sortKey, toLex_inj, Prod.mk.injEq, PutOp.mk.injEq] using h

instance : LinearOrder PutOp := LinearOrder.lift' PutOp.sortKey PutOp.putSortKey_injective

/-- Modelled from the spec: one operation record inserted into the
accumulation list named by listKey.  The record is a small map object whose
fields are written one put at a time; the fields list records those puts in
program order and is read by first occurrence of a field name. -/
structure ListRec where
  id : OpId
  listKey : String
  fields : List (String × AMValue)
deriving DecidableEq

/-- Modelled from the spec: the state of one Automerge AutoCommit document —
the device actor plus the set of map puts and list operation records in its
change history.  Two documents that have exchanged the same changes hold the
same sets, which is what makes merge commutative, associative and
idempotent. -/
structure AutoCommitDoc where
  actor : String
  puts : Finset PutOp
  recs : Finset ListRec
deriving DecidableEq

namespace AutoCommitDoc

/-- Largest lamport counter appearing in the change history. -/
def maxCounter (d : AutoCommitDoc) : Nat :=
  max (d.puts.sup (fun p => p.id.counter)) (d.recs.sup (fun r => r.id.counter))

/-- Counter stamped on the next locally produced operation. -/
def nextCounter (d : AutoCommitDoc) : Nat := d.maxCounter + 1

end AutoCommitDoc

/-- Modelled from the spec: the serialized form of a document.  The save
format carries the full change history; corrupt byte strings are the ones
that do not decode to any history. -/
inductive Bytes where
  | enc (puts : Finset PutOp) (recs : Finset ListRec)
  | corrupt (tag : Nat)
deriving DecidableEq

namespace AutoCommitDoc

/-- Modelled from the spec: AutoCommit load.  A freshly loaded document gets
a new actor identifier of its own (modelled by the empty string, which no
device uses); every readable observation below ignores the actor. -/
def load : Bytes → Option AutoCommitDoc
  | .enc puts recs => some ⟨"", puts, recs⟩
  | .corrupt _ => none

/-- Modelled from the spec: AutoCommit save serializes the full change
history. -/
def save (d : AutoCommitDoc) : Bytes := .enc d.puts d.recs

/-- Modelled from the spec: AutoCommit merge folds the other change history
into this document, i.e. takes the union of the operation sets; the local
actor is retained. -/
def mergeDocs (a b : AutoCommitDoc) : AutoCommitDoc :=
  ⟨a.actor, a.puts ∪ b.puts, a.recs ∪ b.recs⟩

end AutoCommitDoc

/-- Translated from crdt.rs: supported CRDT value types (constructor names
lowercased so they do not shadow the Lean builtin types). -/
inductive CrdtValue where
  | string (s : String)
  | int (i : Int)
  | float (f : ℚ)
  | bool (b : Bool)
  | null
deriving DecidableEq

/-- The AMValue each CrdtValue branch of CrdtDocument.set stores. -/
def CrdtValue.toAM : CrdtValue → AMValue
  | .string s => .str s
  | .int i => .int i
  | .float f => .float f
  | .bool b => .bool b
  | .null => .null

/-- Translated from crdt.rs: an operation record for CRDT lists, used for
inventory adjustments.  delta is an f64 in the source, modelled exactly. -/
structure CrdtOperation where
  id : String
  op_type : String
  delta : ℚ
  user_id : String
  timestamp : String
  notes : Option String
deriving DecidableEq

/-- Translated from crdt.rs: a CRDT document backed by Automerge. -/
structure CrdtDocument where
  doc : AutoCommitDoc
deriving DecidableEq

namespace CrdtDocument

/-- Translated from crdt.rs CrdtDocument::new.  AutoCommit::new draws a fresh
random actor identifier; the drawn identifier is passed in explicitly. -/
def new (actor : String) : CrdtDocument := ⟨⟨actor, ∅, ∅⟩⟩

/-- Translated from crdt.rs CrdtDocument::from_changes. -/
def from_changes (bytes : Bytes) : WResult CrdtDocument :=
  match AutoCommitDoc.load bytes with
  | some d => .ok ⟨d⟩
  | none => .error (.SyncError "Failed to load CRDT")

/-- Translated from crdt.rs CrdtDocument::save. -/
def save (d : CrdtDocument) : WResult Bytes := .ok d.doc.save

/-- Translated from crdt.rs CrdtDocument::merge. -/
def merge (d : CrdtDocument) (other_changes : Bytes) : WResult CrdtDocument :=
  match AutoCommitDoc.load other_changes with
  | some other => .ok ⟨d.doc.mergeDocs other⟩
  | none => .error (.SyncError "Failed to load other CRDT")

/-- Translated from crdt.rs CrdtDocument::set.  The five source branches each
perform the same root-map put of their scalar payload, here factored through
CrdtValue.toAM; the put is stamped with the next local operation
identifier. -/
def set (d : CrdtDocument) (key : String) (value : CrdtValue) : WResult CrdtDocument :=
  .ok ⟨{ d.doc with
          puts := insert ⟨⟨d.doc.nextCounter, d.doc.actor⟩, key, value.toAM⟩ d.doc.puts }⟩

/-- Modelled from the spec: the last-writer-wins winner among the puts at a
key, i.e. the largest put in the linear order headed by the operation
identifier. -/
def getPut (d : CrdtDocument) (key : String) : Option PutOp :=
  ((d.doc.puts.filter (fun p => p.key = key)).sort (· ≤ ·)).getLast?

/-- Value conversion used by get_string (automerge Value::to_str). -/
def toStrVal : AMValue → Option String
  | .str s => some s
  | _ => none

/-- Value conversion used by get_int (automerge Value::to_i64). -/
def toI64Val : AMValue → Option Int
  | .int i => some i
  | _ => none

/-- Value conversion used by get_float and calculate_sum (automerge
Value::to_f64). -/
def toF64Val : AMValue → Option ℚ
  | .float q => some q
  | _ => none

/-- Translated from crdt.rs CrdtDocument::get_string. -/
def get_string (d : CrdtDocument) (key : String) : Option String :=
  (d.getPut key).bind (fun p => toStrVal p.value)

/-- Translated from crdt.rs CrdtDocument::get_int. -/
def get_int (d : CrdtDocument) (key : String) : Option Int :=
  (d.getPut key).bind (fun p => toI64Val p.value)

/-- Translated from crdt.rs CrdtDocument::get_float. -/
def get_float (d : CrdtDocument) (key : String) : Option ℚ :=
  (d.getPut key).bind (fun p => toF64Val p.value)

/-- The record push_operation stores: a fresh map object holding the type,
delta, user, id and timestamp puts, in source order; the notes field of the
operation is never written by the source. -/
def newRec (d : AutoCommitDoc) (list_key : String) (operation : CrdtOperation) : ListRec :=
  ⟨⟨d.nextCounter, d.actor⟩, list_key,
    [("type", .str operation.op_type),
     ("delta", .float operation.delta),
     ("user", .str operation.user_id),
     ("id", .str operation.id),
     ("timestamp", .str operation.timestamp)]⟩

/-- Translated from crdt.rs CrdtDocument::push_operation.  The source inserts
a fresh map object at index 0 of the list at list_key (creating the list when
absent) and then puts the type, delta, user, id and timestamp fields of the
operation into that object, in that order; the notes field is not written.
In the spec-modelled substrate the record joins the set of operation records
of the accumulation list named list_key. -/
def push_operation (d : CrdtDocument) (list_key : String) (operation : CrdtOperation) :
    WResult CrdtDocument :=
  .ok ⟨{ d.doc with recs := insert (newRec d.doc list_key operation) d.doc.recs }⟩

/-- The delta contribution one stored record makes to calculate_sum: read the
delta field, convert with to_f64, contribute 0 when absent or non-numeric —
exactly the skip branch of the source loop. -/
def deltaVal (r : ListRec) : ℚ :=
  ((r.fields.lookup "delta").bind toF64Val).getD 0

/-- The sum of the delta contributions of the records of one accumulation
list. -/
def listSum (d : AutoCommitDoc) (list_key : String) : ℚ :=
  Finset.sum (d.recs.filter (fun r => r.listKey = list_key)) deltaVal

/-- Translated from crdt.rs CrdtDocument::calculate_sum.  The source iterates
the accumulation list and adds every convertible delta field; the spec
(section 4.1) fixes the fold to be order-independent, so it is the sum over
the set of records of the list (0 when the key has no list). -/
def calculate_sum (d : CrdtDocument) (list_key : String) : WResult ℚ :=
  .ok (listSum d.doc list_key)

/-- The document push_operation returns (push_operation always succeeds, so
this is its ok payload). -/
def pushF (d : CrdtDocument) (list_key : String) (operation : CrdtOperation) :
    CrdtDocument :=
  ((d.push_operation list_key operation).toOption).getD d

/-- The document obtained by pushing a batch of operations one after the
other with push_operation. -/
def pushAll (d : CrdtDocument) (list_key : String) (l : List CrdtOperation) :
    CrdtDocument :=
  l.foldl (fun d operation => pushF d list_key operation) d

/-- Translated from crdt.rs CrdtDocument::get_heads_json.  Change hashes are
opaque digests computed inside Automerge; no claim reads them, so the JSON
rendering is modelled as an unspecified constant string. -/
def get_heads_json (_d : CrdtDocument) : WResult String := .ok "[]"

/-- Translated from crdt.rs CrdtDocument::to_json.  The JSON projection of
the current state feeds only the inbox payload column, which no claim reads;
it is modelled as an unspecified constant string. -/
def to_json (_d : CrdtDocument) : WResult String := .ok "{}"

end CrdtDocument

/-- Translated from engine.rs: network connection status. -/
inductive ConnectionStatus where
  | Online
  | Offline
  | Slow
  | Unknown
deriving DecidableEq

/-- Translated from engine.rs: synchronization status.  Timestamps are
modelled as natural-number clock readings. -/
structure SyncStatus where
  is_syncing : Bool
  last_sync_at : Option Nat
  pending_changes : Nat
  sync_errors : Nat
  last_error : Option String
  connection_status : ConnectionStatus
deriving DecidableEq

/-- One row of the sync_outbox table (section 6 of the spec lists its
columns).  datetime values are modelled as natural-number clock readings. -/
structure OutboxRow where
  id : String
  table_name : String
  record_id : String
  operation : String
  payload : String
  version : Int
  created_at : Nat
  sent_at : Option Nat
  acknowledged_at : Option Nat
deriving DecidableEq

/-- One row of the crdt_documents table, unique on
(document_type, record_id). -/
structure CrdtDocRow where
  id : String
  document_type : String
  record_id : String
  actor_id : String
  heads : String
  compressed_changes : Bytes
  version : Int
  updated_at : Nat
deriving DecidableEq

/-- One row of the sync_inbox table. -/
structure InboxRow where
  id : String
  table_name : String
  record_id : String
  operation : String
  payload : String
  server_version : Int
  received_at : Nat
deriving DecidableEq

/-- The relational store visible to the engine: the three sync tables.
Fresh UUID row identifiers generated by the engine are never read back by
any engine code, so they are modelled as the empty string. -/
structure Db where
  outbox : List OutboxRow
  crdt_documents : List CrdtDocRow
  inbox : List InboxRow
deriving DecidableEq

/-- Translated from engine.rs: the outbox projection read by
get_pending_changes (all columns except sent_at and acknowledged_at). -/
structure OutboxItem where
  id : String
  table_name : String
  record_id : String
  operation : String
  payload : String
  version : Int
  created_at : Nat
deriving DecidableEq

/-- Translated from engine.rs: a server change to be applied locally. -/
structure ServerChange where
  table_name : String
  record_id : String
  operation : String
  crdt_changes : Bytes
deriving DecidableEq

/-- Modelled from the spec: the network collaborator (section 6).  The
transport calls inside send_change and fetch_server_changes are TODO stubs in
engine.rs; the spec says both are fallible, so their outcomes are supplied by
this oracle: whether the push of a given outbox item is acknowledged by the
transport, and the result of the pull. -/
structure NetEnv where
  sendOk : OutboxItem → Bool
  fetch : Except WmsError (List ServerChange)

/-- Translated from engine.rs: the main synchronization engine.  The Arc of
the database is modelled by carrying the store in the engine state. -/
structure SyncEngine where
  db : Db
  status : SyncStatus
  server_url : Option String
  device_id : String
deriving DecidableEq

namespace SyncEngine

/-- Translated from engine.rs SyncEngine::get_pending_changes: SELECT the
item columns FROM sync_outbox WHERE sent_at IS NULL ORDER BY created_at ASC
LIMIT 100. -/
def get_pending_changes (db : Db) : List OutboxItem :=
  (((db.outbox.filter (fun r => r.sent_at = none)).insertionSort
      (fun a b => a.created_at ≤ b.created_at)).take 100).map
    (fun r => ⟨r.id, r.table_name, r.record_id, r.operation, r.payload, r.version,
               r.created_at⟩)

/-- Translated from engine.rs SyncEngine::send_change.  The actual transport
call is a TODO stub in the source; modelled from the spec, the push either is
acknowledged by the transport (and then the source marks sent_at) or fails
with a transport error before anything is written. -/
def send_change (db : Db) (net : NetEnv) (now : Nat) (change : OutboxItem) :
    Db × WResult Unit :=
  if net.sendOk change then
    ({ db with
        outbox := db.outbox.map (fun r =>
          if r.id = change.id then { r with sent_at := some now } else r) },
      .ok ())
  else
    (db, .error (.SyncError "transport send failed"))

/-- Translated from engine.rs SyncEngine::fetch_server_changes.  The source
is a TODO stub returning an empty page; modelled from the spec, the pull is a
fallible network fetch answered by the oracle. -/
def fetch_server_changes (net : NetEnv) : WResult (List ServerChange) :=
  net.fetch

/-- Translated from engine.rs SyncEngine::load_crdt_document. -/
def load_crdt_document (db : Db) (doc_type : String) (record_id : String) :
    WResult (Option CrdtDocument) :=
  match db.crdt_documents.find? (fun r =>
      (r.document_type == doc_type) && (r.record_id == record_id)) with
  | some row => (CrdtDocument.from_changes row.compressed_changes).map some
  | none => .ok none

/-- Translated from engine.rs SyncEngine::save_crdt_document: an upsert on
(document_type, record_id); the conflict branch replaces heads and changes
and bumps version, the insert branch writes a fresh row (the version column
takes its schema default, modelled as 1). -/
def save_crdt_document (db : Db) (now : Nat) (device_id : String)
    (doc_type : String) (record_id : String) (doc : CrdtDocument) : WResult Db := do
  let changes ← doc.save
  let heads ← doc.get_heads_json
  if db.crdt_documents.any (fun r =>
      (r.document_type == doc_type) && (r.record_id == record_id)) then
    .ok { db with
            crdt_documents := db.crdt_documents.map (fun r =>
              if (r.document_type == doc_type) && (r.record_id == record_id) then
                { r with heads := heads, compressed_changes := changes,
                         version := r.version + 1, updated_at := now }
              else r) }
  else
    .ok { db with
            crdt_documents := db.crdt_documents ++
              [⟨"", doc_type, record_id, device_id, heads, changes, 1, now⟩] }

/-- Translated from engine.rs SyncEngine::apply_to_sql_table: render the
merged document as JSON and insert it into sync_inbox with operation MERGE
and server_version 0. -/
def apply_to_sql_table (db : Db) (now : Nat) (table_name : String)
    (record_id : String) (doc : CrdtDocument) : WResult Db := do
  let data ← doc.to_json
  .ok { db with
          inbox := db.inbox ++ [⟨"", table_name, record_id, "MERGE", data, 0, now⟩] }

/-- Translated from engine.rs SyncEngine::apply_server_change: load the local
document for the record if any, merge the incoming change bytes into it (or
construct fresh from them), persist the merged document, then enqueue its
state into the inbox.  Every possible failure is raised before the first
store write. -/
def apply_server_change (db : Db) (now : Nat) (device_id : String)
    (change : ServerChange) : WResult Db := do
  let existing ← load_crdt_document db change.table_name change.record_id
  let merged ← match existing with
    | some d => d.merge change.crdt_changes
    | none => CrdtDocument.from_changes change.crdt_changes
  let db1 ← save_crdt_document db now device_id change.table_name change.record_id merged
  apply_to_sql_table db1 now change.table_name change.record_id merged

/-- The send loop of perform_sync (step 2): each failure aborts the loop at
once via the question-mark operator, keeping the store mutations made so
far. -/
def sendChanges (net : NetEnv) (now : Nat) :
    Db → List OutboxItem → Db × WResult Unit
  | db, [] => (db, .ok ())
  | db, c :: rest =>
    match send_change db net now c with
    | (db1, .ok _) => sendChanges net now db1 rest
    | (db1, .error e) => (db1, .error e)

/-- The apply loop of perform_sync (step 4): each failure aborts the loop at
once via the question-mark operator. -/
def applyChanges (now : Nat) (device_id : String) :
    Db → List ServerChange → Db × WResult Unit
  | db, [] => (db, .ok ())
  | db, c :: rest =>
    match apply_server_change db now device_id c with
    | .ok db1 => applyChanges now device_id db1 rest
    | .error e => (db, .error e)

/-- Translated from engine.rs SyncEngine::mark_change_acknowledged. -/
def mark_change_acknowledged (db : Db) (now : Nat) (change_id : String) : Db :=
  { db with
      outbox := db.outbox.map (fun r =>
        if r.id = change_id then { r with acknowledged_at := some now } else r) }

/-- The acknowledgment loop of perform_sync (step 5). -/
def ackChanges (now : Nat) (db : Db) (pending : List OutboxItem) : Db :=
  pending.foldl (fun d c => mark_change_acknowledged d now c.id) db

/-- Translated from engine.rs SyncEngine::perform_sync: read the pending
outbox items, send each, fetch the server changes, apply each, then mark the
sent items acknowledged.  Any failure propagates immediately, keeping the
store mutations already made. -/
def perform_sync (db : Db) (net : NetEnv) (now : Nat) (device_id : String) :
    Db × WResult Unit :=
  let pending := get_pending_changes db
  match sendChanges net now db pending with
  | (db1, .error e) => (db1, .error e)
  | (db1, .ok _) =>
    match fetch_server_changes net with
    | .error e => (db1, .error e)
    | .ok server_changes =>
      match applyChanges now device_id db1 server_changes with
      | (db2, .error e) => (db2, .error e)
      | (db2, .ok _) => (ackChanges now db2 pending, .ok ())

/-- Translated from engine.rs SyncEngine::update_pending_count: SELECT
COUNT(*) FROM sync_outbox WHERE acknowledged_at IS NULL. -/
def unacknowledgedCount (db : Db) : Nat :=
  (db.outbox.filter (fun r => r.acknowledged_at = none)).length

/-- Translated from engine.rs SyncEngine::sync_now.  The two precondition
checks return an error before any state is touched; otherwise is_syncing is
set, one pass runs, the match on its outcome updates the status fields, and
finally is_syncing is cleared and pending_changes recomputed.  The engine is
returned alongside the result to make the mutation of self explicit. -/
def sync_now (e : SyncEngine) (net : NetEnv) (now : Nat) :
    SyncEngine × WResult SyncStatus :=
  if e.status.is_syncing then
    (e, .error (.SyncError "Sync already in progress"))
  else
    match e.server_url with
    | none => (e, .error (.SyncError "No server URL configured"))
    | some _server_url =>
      let st1 := { e.status with is_syncing := true }
      match perform_sync e.db net now e.device_id with
      | (db1, r) =>
        let st2 := match r with
          | .ok _ =>
            { st1 with last_sync_at := some now, sync_errors := 0, last_error := none }
          | .error err =>
            { st1 with sync_errors := st1.sync_errors + 1,
                       last_error := some err.toMessage }
        let st3 := { st2 with is_syncing := false }
        let st4 := { st3 with pending_changes := unacknowledgedCount db1 }
        ({ e with db := db1, status := st4 }, .ok st4)

/-- Translated from engine.rs SyncEngine::queue_change: append one outbox row
with version 1 and created_at now; the fresh UUID is passed in explicitly. -/
def queue_change (e : SyncEngine) (uuid : String) (now : Nat)
    (table_name : String) (record_id : String) (operation : String)
    (payload : String) : SyncEngine :=
  { e with db := { e.db with
      outbox := e.db.outbox ++
        [⟨uuid, table_name, record_id, operation, payload, 1, now, none, none⟩] } }

/-- Translated from engine.rs SyncEngine::get_status. -/
def get_status (e : SyncEngine) : SyncStatus := e.status

/-- Translated from engine.rs SyncEngine::set_connection_status. -/
def set_connection_status (e : SyncEngine) (status : ConnectionStatus) : SyncEngine :=
  { e with status := { e.status with connection_status := status } }

end SyncEngine

/-- Translated from protocol.rs: type of change operation. -/
inductive ChangeOperation where
  | Insert
  | Update
  | Delete
  | Merge
deriving DecidableEq

/-- Translated from protocol.rs: a single change record.  The binary CRDT
change field is a byte vector on the wire, modelled as a list of bytes
(naturals below 256 are not enforced since no claim does arithmetic on
them). -/
structure ChangeRecord where
  id : String
  table_name : String
  record_id : String
  operation : ChangeOperation
  version : Int
  timestamp : Nat
  actor_id : String
  json_payload : Option String
  crdt_changes : Option (List Nat)
deriving DecidableEq

namespace ChangeRecord

/-- Translated from protocol.rs ChangeRecord::json: a change record for JSON
data.  The fresh UUID and the current time drawn inside the constructor are
passed in explicitly. -/
def json (uuid : String) (now : Nat) (table_name : String) (record_id : String)
    (operation : ChangeOperation) (actor_id : String) (payload : String) :
    ChangeRecord :=
  { id := uuid
    table_name := table_name
    record_id := record_id
    operation := operation
    version := 1
    timestamp := now
    actor_id := actor_id
    json_payload := some payload
    crdt_changes := none }

/-- Translated from protocol.rs ChangeRecord::crdt: a change record for CRDT
data.  The fresh UUID and the current time drawn inside the constructor are
passed in explicitly. -/
def crdt (uuid : String) (now : Nat) (table_name : String) (record_id : String)
    (actor_id : String) (changes : List Nat) : ChangeRecord :=
  { id := uuid
    table_name := table_name
    record_id := record_id
    operation := .Merge
    version := 1
    timestamp := now
    actor_id := actor_id
    json_payload := none
    crdt_changes := some changes }

end ChangeRecord

/-
Concrete fixtures used by witnesses and counterexamples.
-/

/-- A network oracle whose pushes all succeed and whose pull returns an empty
page. -/
def sampleNet : NetEnv := ⟨fun _ => true, .ok []⟩

/-- The initial status a fresh engine starts with (engine.rs
SyncEngine::new). -/
def sampleStatus : SyncStatus := ⟨false, none, 0, 0, none, .Unknown⟩

/-- An engine currently inside a pass. -/
def engineSyncing : SyncEngine :=
  ⟨⟨[], [], []⟩, ⟨true, none, 0, 0, none, .Unknown⟩, some "http://example", "dev1"⟩

/-- An idle engine with no configured endpoint. -/
def engineNoUrl : SyncEngine := ⟨⟨[], [], []⟩, sampleStatus, none, "dev1"⟩

/-- An idle, configured engine with one unsent outbox row. -/
def engineReady : SyncEngine :=
  ⟨⟨[⟨"i1", "items", "r1", "UPDATE", "p", 1, 0, none, none⟩], [], []⟩,
    sampleStatus, some "http://example", "dev1"⟩

/-- A network oracle whose pushes all succeed but whose pull fails, so a pass
fails after the drain step. -/
def netFetchFail : NetEnv := ⟨fun _ => true, .error (.SyncError "network down")⟩

/-- A stored document row whose change bytes are corrupt. -/
def corruptDocRow : CrdtDocRow := ⟨"d1", "items", "r1", "dev0", "[]", .corrupt 0, 1, 0⟩

/-- An incoming change for the record whose stored document is corrupt. -/
def changeR1 : ServerChange := ⟨"items", "r1", "MERGE", .enc ∅ ∅⟩

/-- An incoming, perfectly valid change for a second record. -/
def changeR2 : ServerChange := ⟨"items", "r2", "MERGE", .enc ∅ ∅⟩

/-- An idle, configured engine whose store holds the corrupt document row. -/
def engineCorrupt : SyncEngine :=
  ⟨⟨[], [corruptDocRow], []⟩, sampleStatus, some "http://example", "dev1"⟩

/-- A network oracle delivering the corrupt-record change followed by the
valid change for another record. -/
def netTwoChanges : NetEnv := ⟨fun _ => true, .ok [changeR1, changeR2]⟩

/-- The three operations of the accumulation scenario of section 8 of the
spec: receive +100, pick -25, pick -10. -/
def opReceive100 : CrdtOperation := ⟨"o1", "receive", 100, "user1", "t1", none⟩

def opPick25 : CrdtOperation := ⟨"o2", "pick", -25, "user2", "t2", none⟩

def opPick10 : CrdtOperation := ⟨"o3", "pick", -10, "user2", "t3", none⟩

/-
Theorems.  One theorem per claim of the specification audit, with shared
helper lemmas before them.
-/

open CrdtDocument

/-- C2: merging the saved bytes of B into A and the saved bytes of A into B
yields documents whose get_string, get_int, get_float and calculate_sum
observations all agree at every key, and merging the saved bytes of a
document into itself returns the document unchanged (merge is commutative
and idempotent on readable state). -/
theorem C2_merge_commutative_idempotent (A B : CrdtDocument) (k : String) :
    (Except.map (fun d => get_string d k) (Except.bind B.save A.merge)
      = Except.map (fun d => get_string d k) (Except.bind A.save B.merge))
    ∧ (Except.map (fun d => get_int d k) (Except.bind B.save A.merge)
      = Except.map (fun d => get_int d k) (Except.bind A.save B.merge))
    ∧ (Except.map (fun d => get_float d k) (Except.bind B.save A.merge)
      = Except.map (fun d => get_float d k) (Except.bind A.save B.merge))
    ∧ (Except.bind (Except.bind B.save A.merge) (fun d => d.calculate_sum k)
      = Except.bind (Except.bind A.save B.merge) (fun d => d.calculate_sum k))
    ∧ Except.bind A.save A.merge = .ok A := by
  refine ⟨?_, ?_, ?_, ?_, ?_⟩ <;>
    simp only [CrdtDocument.save, AutoCommitDoc.save, CrdtDocument.merge,
      AutoCommitDoc.load, AutoCommitDoc.mergeDocs, Except.bind, Except.map,
      get_string, get_int, get_float, getPut, calculate_sum, listSum]
  · rw [Finset.union_comm B.doc.puts A.doc.puts]
  · rw [Finset.union_comm B.doc.puts A.doc.puts]
  · rw [Finset.union_comm B.doc.puts A.doc.puts]
  · rw [Finset.union_comm B.doc.recs A.doc.recs]
  · simp [Finset.union_self]

/-- C7: loading the saved bytes of any document succeeds and produces a
document with identical get_string, get_int, get_float and calculate_sum
observations at every key. -/
theorem C7_save_load_roundtrip (doc : CrdtDocument) (k : String) :
    (∃ d, Except.bind doc.save from_changes = .ok d)
    ∧ (Except.map (fun d => get_string d k) (Except.bind doc.save from_changes)
        = .ok (get_string doc k))
    ∧ (Except.map (fun d => get_int d k) (Except.bind doc.save from_changes)
        = .ok (get_int doc k))
    ∧ (Except.map (fun d => get_float d k) (Except.bind doc.save from_changes)
        = .ok (get_float doc k))
    ∧ (Except.bind (Except.bind doc.save from_changes) (fun d => d.calculate_sum k)
        = doc.calculate_sum k) := by
  refine ⟨⟨⟨⟨"", doc.doc.puts, doc.doc.recs⟩⟩, rfl⟩, ?_, ?_, ?_, ?_⟩ <;> rfl

/-- C8 counterexample: pushing an operation that carries notes stores a
record with no notes entry at all — the full stored field list of the single
record is type, delta, user, id, timestamp, so not all fields of the given
CrdtOperation are preserved. -/
theorem C8_counterexample :
    ((CrdtDocument.new "a").push_operation "adjustments"
        ⟨"op1", "receive", 100, "user1", "ts1", some "an important note"⟩).map
      (fun d => d.doc.recs.image (fun r => r.fields))
    = .ok {[("type", .str "receive"), ("delta", .float 100), ("user", .str "user1"),
            ("id", .str "op1"), ("timestamp", .str "ts1")]} := by
  decide

/-- C8 amended: push_operation adds to the accumulation list one fresh record
whose stored fields are exactly type, delta, user, id and timestamp taken
from the given operation; the notes field of the operation is not stored. -/
theorem C8_push_operation_stored_fields (d : CrdtDocument) (list_key : String)
    (operation : CrdtOperation) :
    ∃ r : ListRec,
      d.push_operation list_key operation
        = .ok ⟨{ d.doc with recs := insert r d.doc.recs }⟩
      ∧ r.listKey = list_key
      ∧ r.fields.lookup "type" = some (.str operation.op_type)
      ∧ r.fields.lookup "delta" = some (.float operation.delta)
      ∧ r.fields.lookup "user" = some (.str operation.user_id)
      ∧ r.fields.lookup "id" = some (.str operation.id)
      ∧ r.fields.lookup "timestamp" = some (.str operation.timestamp)
      ∧ r.fields.lookup "notes" = none
      ∧ (r.fields.map Prod.fst)
          = ["type", "delta", "user", "id", "timestamp"] := by
  refine ⟨⟨⟨d.doc.nextCounter, d.doc.actor⟩, list_key,
    [("type", .str operation.op_type), ("delta", .float operation.delta),
     ("user", .str operation.user_id), ("id", .str operation.id),
     ("timestamp", .str operation.timestamp)]⟩, rfl, rfl, ?_, ?_, ?_, ?_, ?_, ?_, rfl⟩
    <;> simp [List.lookup]

/-- C9 counterexample: the json constructor accepts any operation, so a
record with operation Merge and a JSON payload (and no CRDT change bytes) is
constructed by it — Merge is not reserved to CRDT-backed records by
construction. -/
theorem C9_counterexample :
    (ChangeRecord.json "u1" 0 "items" "r1" ChangeOperation.Merge "actor" "p").operation
        = ChangeOperation.Merge
    ∧ (ChangeRecord.json "u1" 0 "items" "r1" ChangeOperation.Merge "actor" "p").json_payload
        = some "p"
    ∧ (ChangeRecord.json "u1" 0 "items" "r1" ChangeOperation.Merge "actor" "p").crdt_changes
        = none := ⟨rfl, rfl, rfl⟩

/-- C9 amended: every record built by the constructors carries exactly one
payload kind — json sets json_payload and clears crdt_changes, crdt sets
crdt_changes, clears json_payload and always uses operation Merge; but the
json constructor stores whatever operation its caller passes, so nothing
restricts Merge to CRDT-backed records. -/
theorem C9_constructors_payload_kinds (uuid : String) (now : Nat)
    (table_name record_id : String) (operation : ChangeOperation)
    (actor_id payload : String) (changes : List Nat) :
    (ChangeRecord.json uuid now table_name record_id operation actor_id payload).json_payload
        = some payload
    ∧ (ChangeRecord.json uuid now table_name record_id operation actor_id payload).crdt_changes
        = none
    ∧ (ChangeRecord.json uuid now table_name record_id operation actor_id payload).operation
        = operation
    ∧ (ChangeRecord.crdt uuid now table_name record_id actor_id changes).crdt_changes
        = some changes
    ∧ (ChangeRecord.crdt uuid now table_name record_id actor_id changes).json_payload
        = none
    ∧ (ChangeRecord.crdt uuid now table_name record_id actor_id changes).operation
        = ChangeOperation.Merge :=
  ⟨rfl, rfl, rfl, rfl, rfl, rfl⟩

/-- C4: while a pass is running, or when no endpoint is configured, sync_now
returns the corresponding error immediately and the engine — in particular
every field of its SyncStatus — is returned exactly as it was. -/
theorem C4_precondition_errors_no_mutation (e : SyncEngine) (net : NetEnv) (now : Nat) :
    (e.status.is_syncing = true →
      SyncEngine.sync_now e net now = (e, .error (.SyncError "Sync already in progress")))
    ∧ (e.status.is_syncing = false → e.server_url = none →
      SyncEngine.sync_now e net now = (e, .error (.SyncError "No server URL configured"))) := by
  constructor
  · intro h
    simp [SyncEngine.sync_now, h]
  · intro h1 h2
    simp [SyncEngine.sync_now, h1, h2]

theorem C4_witness :
    (engineSyncing.status.is_syncing = true
      ∧ SyncEngine.sync_now engineSyncing sampleNet 0
          = (engineSyncing, .error (.SyncError "Sync already in progress")))
    ∧ (engineNoUrl.status.is_syncing = false
      ∧ engineNoUrl.server_url = none
      ∧ SyncEngine.sync_now engineNoUrl sampleNet 0
          = (engineNoUrl, .error (.SyncError "No server URL configured"))) :=
  ⟨⟨rfl, (C4_precondition_errors_no_mutation engineSyncing sampleNet 0).1 rfl⟩,
   rfl, rfl, (C4_precondition_errors_no_mutation engineNoUrl sampleNet 0).2 rfl rfl⟩

/-- C5: every sync_now call that enters a pass ends with is_syncing false and
with pending_changes equal to the count of outbox rows whose acknowledged_at
is unset, whether the pass succeeded or failed. -/
theorem C5_pass_restores_status_invariants (e : SyncEngine) (net : NetEnv) (now : Nat)
    (u : String) (h1 : e.status.is_syncing = false) (h2 : e.server_url = some u) :
    ((SyncEngine.sync_now e net now).1.status.is_syncing = false)
    ∧ ((SyncEngine.sync_now e net now).1.status.pending_changes
        = SyncEngine.unacknowledgedCount (SyncEngine.sync_now e net now).1.db) := by
  cases hp : SyncEngine.perform_sync e.db net now e.device_id with
  | mk db1 r => cases r <;> simp [SyncEngine.sync_now, h1, h2, hp]

theorem C5_witness :
    engineReady.status.is_syncing = false
    ∧ engineReady.server_url = some "http://example"
    ∧ ((SyncEngine.sync_now engineReady sampleNet 5).1.status.is_syncing = false)
    ∧ ((SyncEngine.sync_now engineReady sampleNet 5).1.status.pending_changes
        = SyncEngine.unacknowledgedCount (SyncEngine.sync_now engineReady sampleNet 5).1.db) := by
  refine ⟨rfl, rfl, ?_, ?_⟩
  · exact (C5_pass_restores_status_invariants engineReady sampleNet 5 "http://example" rfl rfl).1
  · exact (C5_pass_restores_status_invariants engineReady sampleNet 5 "http://example" rfl rfl).2

/-- C10: whenever the pass inside sync_now succeeds, last_sync_at is set to
the current time, sync_errors is reset to 0 and last_error is cleared, so the
error counter counts consecutive failed passes since the last success. -/
theorem C10_success_resets_error_state (e : SyncEngine) (net : NetEnv) (now : Nat)
    (u : String) (h1 : e.status.is_syncing = false) (h2 : e.server_url = some u)
    (h3 : (SyncEngine.perform_sync e.db net now e.device_id).2 = .ok ()) :
    ((SyncEngine.sync_now e net now).1.status.last_sync_at = some now)
    ∧ ((SyncEngine.sync_now e net now).1.status.sync_errors = 0)
    ∧ ((SyncEngine.sync_now e net now).1.status.last_error = none) := by
  cases hp : SyncEngine.perform_sync e.db net now e.device_id with
  | mk db1 r =>
    rw [hp] at h3
    cases r with
    | ok v => simp [SyncEngine.sync_now, h1, h2, hp]
    | error err => simp at h3

theorem C10_witness :
    engineReady.status.is_syncing = false
    ∧ engineReady.server_url = some "http://example"
    ∧ (SyncEngine.perform_sync engineReady.db sampleNet 5 engineReady.device_id).2 = .ok ()
    ∧ ((SyncEngine.sync_now engineReady sampleNet 5).1.status.last_sync_at = some 5)
    ∧ ((SyncEngine.sync_now engineReady sampleNet 5).1.status.sync_errors = 0)
    ∧ ((SyncEngine.sync_now engineReady sampleNet 5).1.status.last_error = none) := by
  have h := C10_success_resets_error_state engineReady sampleNet 5 "http://example" rfl rfl
    (by decide)
  exact ⟨rfl, rfl, by decide, h.1, h.2.1, h.2.2⟩

/-- C1: the code evaluated at the at-least-once scenario.  The engine holds
one outbox row; the first pass sends it (marking sent_at) and then fails at
the fetch step, so acknowledged_at is never set and the failure is recorded.
The drain query of the next pass — get_pending_changes, WHERE sent_at IS
NULL — selects nothing, so the unacknowledged item is never resent: a second
pass over a fully healthy network completes as a success while the item stays
unacknowledged forever and the pending count stays at 1. -/
theorem C1_sent_but_unacknowledged_item_never_retried :
    ((SyncEngine.sync_now engineReady netFetchFail 1).1.status.sync_errors = 1)
    ∧ ((SyncEngine.sync_now engineReady netFetchFail 1).1.db.outbox.map
        (fun r => r.acknowledged_at) = [none])
    ∧ ((SyncEngine.sync_now engineReady netFetchFail 1).1.status.pending_changes = 1)
    ∧ (SyncEngine.get_pending_changes
        (SyncEngine.sync_now engineReady netFetchFail 1).1.db = [])
    ∧ ((SyncEngine.sync_now (SyncEngine.sync_now engineReady netFetchFail 1).1
          sampleNet 2).1.status.sync_errors = 0)
    ∧ ((SyncEngine.sync_now (SyncEngine.sync_now engineReady netFetchFail 1).1
          sampleNet 2).1.db.outbox.map (fun r => r.acknowledged_at) = [none])
    ∧ ((SyncEngine.sync_now (SyncEngine.sync_now engineReady netFetchFail 1).1
          sampleNet 2).1.status.pending_changes = 1) := by
  decide

/-- C3 counterexample: with a corrupt local document for r1 and incoming
changes for r1 then r2, the pass records a failure and the change for r2 is
never applied — no document is persisted for r2 and nothing reaches the
inbox — so the per-record failure aborts the whole apply step instead of
being skipped for that record only. -/
theorem C3_counterexample :
    ((SyncEngine.sync_now engineCorrupt netTwoChanges 1).1.status.sync_errors = 1)
    ∧ ((SyncEngine.sync_now engineCorrupt netTwoChanges 1).1.status.last_error
        = some "Sync error: Failed to load CRDT")
    ∧ ((SyncEngine.sync_now engineCorrupt netTwoChanges 1).1.db.inbox = [])
    ∧ ((SyncEngine.sync_now engineCorrupt netTwoChanges 1).1.db.crdt_documents.map
        (fun r => r.record_id) = ["r1"]) := by
  decide

/-- C3 amended: a CorruptDocument or IncompatibleDocument failure on one
record aborts the apply loop at that record — the store is left as it was
before that record and the remaining incoming changes are not applied — while
sync_now traps the error of the pass into the status (returning it as the ok
payload) instead of propagating it to its caller, incrementing sync_errors
and recording last_error. -/
theorem C3_record_failure_aborts_apply_loop (db : Db) (now : Nat) (device_id : String)
    (c : ServerChange) (rest : List ServerChange) (err : WmsError)
    (h : SyncEngine.apply_server_change db now device_id c = .error err) :
    (SyncEngine.applyChanges now device_id db (c :: rest) = (db, .error err))
    ∧ (∀ (e : SyncEngine) (net : NetEnv) (u : String),
        e.status.is_syncing = false → e.server_url = some u →
        (SyncEngine.sync_now e net now).2
          = .ok (SyncEngine.sync_now e net now).1.status)
    ∧ (∀ (e : SyncEngine) (net : NetEnv) (u : String),
        e.status.is_syncing = false → e.server_url = some u →
        (SyncEngine.perform_sync e.db net now e.device_id).2 = .error err →
        ((SyncEngine.sync_now e net now).1.status.sync_errors
            = e.status.sync_errors + 1
          ∧ (SyncEngine.sync_now e net now).1.status.last_error
            = some err.toMessage)) := by
  refine ⟨?_, ?_, ?_⟩
  · simp [SyncEngine.applyChanges, h]
  · intro e net u h1 h2
    cases hp : SyncEngine.perform_sync e.db net now e.device_id with
    | mk db1 r => cases r <;> simp [SyncEngine.sync_now, h1, h2, hp]
  · intro e net u h1 h2 h3
    cases hp : SyncEngine.perform_sync e.db net now e.device_id with
    | mk db1 r =>
      rw [hp] at h3
      cases r with
      | ok v => simp at h3
      | error e2 =>
        simp only [Except.error.injEq] at h3
        subst h3
        simp [SyncEngine.sync_now, h1, h2, hp]

theorem C3_witness :
    (SyncEngine.applyChanges 1 "dev1" engineCorrupt.db [changeR1, changeR2]
      = (engineCorrupt.db, .error (.SyncError "Failed to load CRDT")))
    ∧ ((SyncEngine.sync_now engineCorrupt netTwoChanges 1).2
        = .ok (SyncEngine.sync_now engineCorrupt netTwoChanges 1).1.status)
    ∧ ((SyncEngine.sync_now engineCorrupt netTwoChanges 1).1.status.sync_errors
        = engineCorrupt.status.sync_errors + 1) := by
  have h := C3_record_failure_aborts_apply_loop engineCorrupt.db 1 "dev1"
    changeR1 [changeR2] (.SyncError "Failed to load CRDT") (by decide)
  refine ⟨h.1, h.2.1 engineCorrupt netTwoChanges "http://example" rfl rfl, ?_⟩
  exact (h.2.2 engineCorrupt netTwoChanges "http://example" rfl rfl (by decide)).1

/-- A record stamped with the next lamport counter is fresh: it cannot
already be in the record set, because every member counter is bounded by the
running maximum. -/
theorem newRec_not_mem (d : AutoCommitDoc) (list_key : String)
    (operation : CrdtOperation) : newRec d list_key operation ∉ d.recs := by
  intro h
  have h2 := Finset.le_sup (f := fun r : ListRec => r.id.counter) h
  simp only [newRec, AutoCommitDoc.nextCounter, AutoCommitDoc.maxCounter] at h2
  omega

/-- The stored record contributes exactly the delta of the pushed
operation. -/
theorem deltaVal_newRec (d : AutoCommitDoc) (list_key : String)
    (operation : CrdtOperation) :
    deltaVal (newRec d list_key operation) = operation.delta := rfl

/-- Pushing one operation adds its delta to the sum of its list. -/
theorem listSum_pushF (d : CrdtDocument) (list_key : String)
    (operation : CrdtOperation) :
    listSum (pushF d list_key operation).doc list_key
      = operation.delta + listSum d.doc list_key := by
  have hfresh : newRec d.doc list_key operation ∉
      d.doc.recs.filter (fun r => r.listKey = list_key) :=
    fun hm => newRec_not_mem d.doc list_key operation (Finset.mem_of_mem_filter _ hm)
  show listSum
      { d.doc with recs := insert (newRec d.doc list_key operation) d.doc.recs }
      list_key = _
  unfold listSum
  have hcond : (newRec d.doc list_key operation).listKey = list_key := rfl
  rw [Finset.filter_insert, if_pos hcond, Finset.sum_insert hfresh, deltaVal_newRec]

theorem pushAll_cons (d : CrdtDocument) (list_key : String)
    (operation : CrdtOperation) (rest : List CrdtOperation) :
    pushAll d list_key (operation :: rest)
      = pushAll (pushF d list_key operation) list_key rest := rfl

/-- Pushing a batch adds the sum of its deltas to the sum of the list. -/
theorem listSum_pushAll (list_key : String) (l : List CrdtOperation) :
    ∀ d : CrdtDocument,
      listSum (pushAll d list_key l).doc list_key
        = listSum d.doc list_key + (l.map CrdtOperation.delta).sum := by
  induction l with
  | nil => intro d; simp [pushAll]
  | cons operation rest ih =>
    intro d
    rw [pushAll_cons, ih (pushF d list_key operation), listSum_pushF]
    simp only [List.map_cons, List.sum_cons]
    ring

/-- Every record of a pushed document either predates the pushes or is
stamped with the actor of the document. -/
theorem pushAll_recs_actor (list_key : String) (l : List CrdtOperation) :
    ∀ (d : CrdtDocument) (r : ListRec), r ∈ (pushAll d list_key l).doc.recs →
      r ∈ d.doc.recs ∨ r.id.actor = d.doc.actor := by
  induction l with
  | nil => intro d r hr; exact .inl hr
  | cons operation rest ih =>
    intro d r hr
    rw [pushAll_cons] at hr
    rcases ih (pushF d list_key operation) r hr with h | h
    · have h2 : r ∈ insert (newRec d.doc list_key operation) d.doc.recs := h
      rcases Finset.mem_insert.mp h2 with h3 | h3
      · right
        rw [h3]
        rfl
      · left
        exact h3
    · right
      exact h

/-- Batches pushed by distinct actors into fresh documents have disjoint
record sets. -/
theorem pushAll_new_disjoint (list_key : String) (l1 l2 : List CrdtOperation)
    (a b : String) (hab : a ≠ b) :
    Disjoint (pushAll (CrdtDocument.new a) list_key l1).doc.recs
      (pushAll (CrdtDocument.new b) list_key l2).doc.recs := by
  rw [Finset.disjoint_left]
  intro r h1 h2
  rcases pushAll_recs_actor list_key l1 (CrdtDocument.new a) r h1 with h | h
  · simp [CrdtDocument.new] at h
  · rcases pushAll_recs_actor list_key l2 (CrdtDocument.new b) r h2 with h2m | h2m
    · simp [CrdtDocument.new] at h2m
    · exact hab (h.symm.trans h2m)

/-- The sum of a list after a merge of documents with disjoint record sets is
the sum of the two sums. -/
theorem listSum_mergeDocs (A B : AutoCommitDoc) (list_key : String)
    (h : Disjoint A.recs B.recs) :
    listSum (A.mergeDocs B) list_key = listSum A list_key + listSum B list_key := by
  simp only [listSum, AutoCommitDoc.mergeDocs]
  rw [Finset.filter_union]
  exact Finset.sum_union
    (h.mono (Finset.filter_subset _ _) (Finset.filter_subset _ _))

/-- C6: calculate_sum returns the sum of the deltas of all operation records
pushed into the list — a key with no list sums to 0, a pushed batch sums to
the sum of its deltas independently of push order, and the sums of batches
pushed by two distinct actors add up after merging one saved document into
the other, independent of merge direction (by C2). -/
theorem C6_calculate_sum_of_all_operations (list_key : String)
    (l1 l2 l1p : List CrdtOperation) (a b : String)
    (hab : a ≠ b) (hperm : l1.Perm l1p) :
    ((CrdtDocument.new a).calculate_sum list_key = .ok 0)
    ∧ ((pushAll (CrdtDocument.new a) list_key l1).calculate_sum list_key
        = .ok ((l1.map CrdtOperation.delta).sum))
    ∧ ((pushAll (CrdtDocument.new a) list_key l1).calculate_sum list_key
        = (pushAll (CrdtDocument.new a) list_key l1p).calculate_sum list_key)
    ∧ (Except.bind
        (Except.bind (pushAll (CrdtDocument.new b) list_key l2).save
          (pushAll (CrdtDocument.new a) list_key l1).merge)
        (fun d => d.calculate_sum list_key)
        = .ok ((l1.map CrdtOperation.delta).sum
              + (l2.map CrdtOperation.delta).sum)) := by
  have hz : ∀ c : String, listSum (CrdtDocument.new c).doc list_key = 0 := by
    intro c
    simp [CrdtDocument.new, listSum]
  have hsum : ∀ (c : String) (l : List CrdtOperation),
      listSum (pushAll (CrdtDocument.new c) list_key l).doc list_key
        = (l.map CrdtOperation.delta).sum := by
    intro c l
    rw [listSum_pushAll list_key l (CrdtDocument.new c), hz c, zero_add]
  refine ⟨?_, ?_, ?_, ?_⟩
  · show Except.ok (listSum (CrdtDocument.new a).doc list_key) = _
    rw [hz a]
  · show Except.ok
      (listSum (pushAll (CrdtDocument.new a) list_key l1).doc list_key) = _
    rw [hsum a l1]
  · show Except.ok
      (listSum (pushAll (CrdtDocument.new a) list_key l1).doc list_key)
      = Except.ok
        (listSum (pushAll (CrdtDocument.new a) list_key l1p).doc list_key)
    rw [hsum a l1, hsum a l1p, (hperm.map CrdtOperation.delta).sum_eq]
  · calc
      Except.bind
          (Except.bind (pushAll (CrdtDocument.new b) list_key l2).save
            (pushAll (CrdtDocument.new a) list_key l1).merge)
          (fun d => d.calculate_sum list_key)
        = .ok (listSum
            ((pushAll (CrdtDocument.new a) list_key l1).doc.mergeDocs
              ⟨"", (pushAll (CrdtDocument.new b) list_key l2).doc.puts,
                   (pushAll (CrdtDocument.new b) list_key l2).doc.recs⟩)
            list_key) := rfl
      _ = .ok (listSum (pushAll (CrdtDocument.new a) list_key l1).doc list_key
            + listSum
              (⟨"", (pushAll (CrdtDocument.new b) list_key l2).doc.puts,
                    (pushAll (CrdtDocument.new b) list_key l2).doc.recs⟩
                : AutoCommitDoc) list_key) := by
          rw [listSum_mergeDocs]
          exact pushAll_new_disjoint list_key l1 l2 a b hab
      _ = .ok ((l1.map CrdtOperation.delta).sum
            + (l2.map CrdtOperation.delta).sum) := by
          have hb : listSum
              (⟨"", (pushAll (CrdtDocument.new b) list_key l2).doc.puts,
                    (pushAll (CrdtDocument.new b) list_key l2).doc.recs⟩
                : AutoCommitDoc) list_key
              = listSum (pushAll (CrdtDocument.new b) list_key l2).doc list_key := rfl
          rw [hb, hsum a l1, hsum b l2]

theorem C6_witness :
    ("user1" : String) ≠ "user2"
    ∧ [opReceive100].Perm [opReceive100]
    ∧ ((CrdtDocument.new "user1").calculate_sum "adjustments" = .ok 0)
    ∧ (Except.bind
        (Except.bind
          (pushAll (CrdtDocument.new "user2") "adjustments" [opPick25, opPick10]).save
          (pushAll (CrdtDocument.new "user1") "adjustments" [opReceive100]).merge)
        (fun d => d.calculate_sum "adjustments") = .ok 65) := by
  have h := C6_calculate_sum_of_all_operations "adjustments" [opReceive100]
    [opPick25, opPick10] [opReceive100] "user1" "user2" (by decide)
    (List.Perm.refl _)
  refine ⟨by decide, List.Perm.refl _, h.1, ?_⟩
  have h4 := h.2.2.2
  norm_num [opReceive100, opPick25, opPick10] at h4
  exact h4

end WmsSync
